import Mathlib

/-!
Verification of the Plant-Pet ESP32 monitor (repository Iot-Data-App).

Shallow embedding of the measurement-to-decision pipeline found in the three
Arduino sketches `src/main_workingcode/main_workingcode.ino`,
`src/main_2.0/main_2.0.ino` and `src/unnamed/part_000`:

* two-point linear calibration with clamping (`clampPct`, `soilToPct`,
  `lightToPct`, identical in all three variants);
* the composite happiness score `(soilPct * 7.7 + lightPct * 2.5) / 10`;
* the Pushover alert hysteresis logic guarded by the `alertSent` flag
  (part_000, lines 375-395);
* the 10-minute aggregation window with its emission step
  (lines 397-423 of part_000, lines 309-335 of main_2.0);
* the per-destination delivery functions `sendToInflux`, `sendToSupabase`
  and `sendPushoverAlert`, abstracted over an oracle describing the WiFi
  link state and the HTTP responses.

C `int`/`long` values are embedded as `Int`; C integer division (truncation
toward zero) is `Int.tdiv`.  The `millis()` clock is an unsigned 32-bit
counter, so elapsed time is computed modulo `2 ^ 32`.
-/

namespace PlantPet

/-! ### Calibration constants (identical in the three sketches) -/

def SOIL_WET_RAW : ℤ := 700

def SOIL_DRY_RAW : ℤ := 2300

def LDR_DARK_RAW : ℤ := 450

def LDR_BRIGHT_RAW : ℤ := 3000

/-- Two's-complement wrap of an integer into the ESP32 `long` (int32) range
`[-2147483648, 2147483648)`. -/
def wrap32 (n : ℤ) : ℤ :=
  (n + 2147483648) % 4294967296 - 2147483648

/-- Arduino `map(x, in_min, in_max, out_min, out_max) =
(x - in_min) * (out_max - out_min) / (in_max - in_min) + out_min`, computed
in C `long` arithmetic, which on the ESP32 is 32 bits wide: every
intermediate result wraps into the two's-complement int32 range (`wrap32`),
and division truncates toward zero (`Int.tdiv`).  In particular the product
`(x - in_min) * 100` wraps for raw readings beyond about `2.1 * 10 ^ 7`. -/
def map (x in_min in_max out_min out_max : ℤ) : ℤ :=
  wrap32 (Int.tdiv (wrap32 (wrap32 (x - in_min) * wrap32 (out_max - out_min)))
    (wrap32 (in_max - in_min)) + out_min)

/-- `int clampPct(int v){ return v<0 ? 0 : (v > 100 ? 100 : v); }` -/
def clampPct (v : ℤ) : ℤ :=
  if v < 0 then 0 else if v > 100 then 100 else v

/-- `int soilToPct(int raw){ return clampPct(map(raw, SOIL_DRY_RAW, SOIL_WET_RAW, 0, 100)); }` -/
def soilToPct (raw : ℤ) : ℤ :=
  clampPct (map raw SOIL_DRY_RAW SOIL_WET_RAW 0 100)

/-- `int lightToPct(int raw){ return clampPct(map(raw, LDR_DARK_RAW, LDR_BRIGHT_RAW, 0, 100)); }` -/
def lightToPct (raw : ℤ) : ℤ :=
  clampPct (map raw LDR_DARK_RAW LDR_BRIGHT_RAW 0 100)

/-! ### Scorer -/

/-- `int score = (soilPct * 7.7 + lightPct * 2.5) / 10;`

The C expression is evaluated in IEEE double precision and the result is
truncated toward zero when stored in `int`.  For integer inputs in
`[0,100] × [0,100]` the double computation agrees exactly with the rational
value `(77*s + 25*l) / 100` truncated downward (both are nonnegative there,
and the accumulated rounding error, below `2 ^ 40` ulp of the weights, never
crosses a truncation boundary because nonzero fractional parts of the exact
value are at least `1/100`); this was checked exhaustively over the domain.
Hence the embedding uses exact integer arithmetic: `Int` division `/` is
Euclidean division, which on nonnegative operands is plain floor division. -/
def score (soilPct lightPct : ℤ) : ℤ :=
  (soilPct * 77 + lightPct * 25) / 100

/-! ### Alert hysteresis state machine (part_000, lines 62-66 and 375-395) -/

def HAPPINESS_THRESHOLD : ℤ := 40

def RECOVERY_MARGIN : ℤ := 5

/-- The two kinds of Pushover notification the loop can send. -/
inductive Notification
  | degraded
  | recovered
deriving DecidableEq, Repr

/-- One tick of the alert logic of part_000 (lines 378-395), acting on the
persistent `alertSent` flag.  `happiness` is `(float)score`, an exact integer,
compared against the exact constants `40.0` and `45.0`, so the comparison is
faithfully an integer comparison.  Returns the new flag value and the
notification sent this tick, if any.

```c
if (happiness < HAPPINESS_THRESHOLD) {
  if (!alertSent) { sendPushoverAlert(degraded-msg); alertSent = true; }
} else if (happiness > HAPPINESS_THRESHOLD + RECOVERY_MARGIN) {
  if (alertSent) { sendPushoverAlert(recovered-msg); }
  alertSent = false;
}
``` -/
def alertStep (alertSent : Bool) (happiness : ℤ) : Bool × Option Notification :=
  if happiness < HAPPINESS_THRESHOLD then
    if !alertSent then (true, some Notification.degraded)
    else (alertSent, none)
  else if happiness > HAPPINESS_THRESHOLD + RECOVERY_MARGIN then
    (false, if alertSent then some Notification.recovered else none)
  else (alertSent, none)

/-- Run the alert logic over a sequence of per-tick scores, collecting the
notification (or absence of one) at each tick. -/
def alertTrace (alertSent : Bool) (scores : List ℤ) : List (Option Notification) :=
  match scores with
  | [] => []
  | s :: rest =>
      (alertStep alertSent s).2 :: alertTrace (alertStep alertSent s).1 rest

/-! ### Ten-minute aggregation window (part_000 lines 69-75 and 397-423) -/

def LOG_INTERVAL_MS : ℕ := 600000

/-- The four running totals plus the window-start timestamp (`lastSendMs`).
Sums are C `long`; the timestamp is the unsigned 32-bit `millis()` value. -/
structure AggState where
  aggSoilSum : ℤ
  aggLightSum : ℤ
  aggScoreSum : ℤ
  aggCount : ℤ
  lastSendMs : ℕ
deriving DecidableEq, Repr

/-- Per-tick accumulation (lines 398-401):
`aggSoilSum += soilPct; aggLightSum += lightPct; aggScoreSum += score; aggCount++;` -/
def accumulate (st : AggState) (soilPct lightPct score : ℤ) : AggState :=
  ⟨st.aggSoilSum + soilPct, st.aggLightSum + lightPct,
   st.aggScoreSum + score, st.aggCount + 1, st.lastSendMs⟩

/-- `now - lastSendMs` on the unsigned 32-bit `millis()` counter: the C
subtraction wraps modulo `2 ^ 32`. -/
def elapsedMs (now last : ℕ) : ℕ :=
  (now % 2 ^ 32 + (2 ^ 32 - last % 2 ^ 32)) % 2 ^ 32

/-- The zeroed window state produced by lines 419-421
(`aggSoilSum = aggLightSum = aggScoreSum = 0; aggCount = 0; lastSendMs = now;`). -/
def resetAt (now : ℕ) : AggState :=
  ⟨0, 0, 0, 0, now⟩

/-- The emission step (lines 404-421, network sends elided here): when at
least `LOG_INTERVAL_MS` has elapsed since `lastSendMs` and the count is
positive, return the three window averages (`float(sum) / count`, embedded
as exact rational division) and the reset state; otherwise do nothing. -/
def emit (st : AggState) (now : ℕ) : Option (ℚ × ℚ × ℚ) × AggState :=
  if LOG_INTERVAL_MS ≤ elapsedMs now st.lastSendMs ∧ 0 < st.aggCount then
    (some ((st.aggSoilSum : ℚ) / (st.aggCount : ℚ),
           (st.aggLightSum : ℚ) / (st.aggCount : ℚ),
           (st.aggScoreSum : ℚ) / (st.aggCount : ℚ)),
     resetAt now)
  else (none, st)

/-- Fold a window's worth of `(soilPct, lightPct, score)` ticks through
`accumulate`, one call per tick exactly as the loop does. -/
def runWindow (st : AggState) (ticks : List (ℤ × ℤ × ℤ)) : AggState :=
  ticks.foldl (fun s t => accumulate s t.1 t.2.1 t.2.2) st

/-- Sum of the soil components of a tick list. -/
def soilTotal (ticks : List (ℤ × ℤ × ℤ)) : ℤ :=
  (ticks.map fun t => t.1).sum

/-- Sum of the light components of a tick list. -/
def lightTotal (ticks : List (ℤ × ℤ × ℤ)) : ℤ :=
  (ticks.map fun t => t.2.1).sum

/-- Sum of the score components of a tick list. -/
def scoreTotal (ticks : List (ℤ × ℤ × ℤ)) : ℤ :=
  (ticks.map fun t => t.2.2).sum

/-! ### Network delivery model

The three senders perform HTTP calls whose results the program cannot
control; they are modelled as functions of an oracle `NetEnv` recording the
WiFi link state and each destination's `http.begin` success and response
code.  Each sender returns the number of times it invoked the connectivity
manager (`connectToWiFi`) together with its outcome. -/

/-- Outcome of one delivery attempt. -/
inductive Outcome
  | skippedNoLink
  | beginFailed
  | success
  | httpError (code : ℤ)
  | posted (code : ℤ)
deriving DecidableEq, Repr

/-- Oracle for one emission cycle: link state and HTTP responses. -/
structure NetEnv where
  wifiConnected : Bool
  wifiAfterReconnect : Bool
  influxBeginOk : Bool
  influxCode : ℤ
  supabaseBeginOk : Bool
  supabaseCode : ℤ
  pushoverBeginOk : Bool
  pushoverCode : ℤ
deriving DecidableEq, Repr

/-- `sendToInflux` (main_2.0 lines 186-223, part_000 lines 249-286): if WiFi
is down it logs "Skipped (WiFi not connected)" and returns at once — it never
calls `connectToWiFi`; otherwise it posts once and treats HTTP 204 as
success, any other code as a logged, non-fatal error. -/
def sendToInflux (env : NetEnv) : ℕ × Outcome :=
  if !env.wifiConnected then (0, Outcome.skippedNoLink)
  else if !env.influxBeginOk then (0, Outcome.beginFailed)
  else if env.influxCode = 204 then (0, Outcome.success)
  else (0, Outcome.httpError env.influxCode)

/-- `sendToSupabase` (main_2.0 lines 226-267, part_000 lines 290-331): same
shape as `sendToInflux`, with HTTP 201 or 204 as success. -/
def sendToSupabase (env : NetEnv) : ℕ × Outcome :=
  if !env.wifiConnected then (0, Outcome.skippedNoLink)
  else if !env.supabaseBeginOk then (0, Outcome.beginFailed)
  else if env.supabaseCode = 201 ∨ env.supabaseCode = 204 then (0, Outcome.success)
  else (0, Outcome.httpError env.supabaseCode)

/-- `sendPushoverAlert` (part_000 lines 205-245): if WiFi is down it calls
`connectToWiFi()` exactly once and aborts if the link is still absent
afterwards; then it posts once and logs whatever code comes back (no success
classification). -/
def sendPushoverAlert (env : NetEnv) : ℕ × Outcome :=
  if !env.wifiConnected then
    if !env.wifiAfterReconnect then (1, Outcome.skippedNoLink)
    else if !env.pushoverBeginOk then (1, Outcome.beginFailed)
    else (1, Outcome.posted env.pushoverCode)
  else if !env.pushoverBeginOk then (0, Outcome.beginFailed)
  else (0, Outcome.posted env.pushoverCode)

/-- The full emission block of main_2.0 (lines 317-335): when the window has
elapsed and the count is positive, compute the averages, attempt Influx then
Supabase in order, and clear the window unconditionally afterwards.  Returns
the pair of delivery outcomes (when an emission fired) and the new window
state. -/
def emitCycle (st : AggState) (now : ℕ) (env : NetEnv) :
    Option (Outcome × Outcome) × AggState :=
  if LOG_INTERVAL_MS ≤ elapsedMs now st.lastSendMs ∧ 0 < st.aggCount then
    (some ((sendToInflux env).2, (sendToSupabase env).2), resetAt now)
  else (none, st)

/-! ### Supabase JSON body field mapping (claim C8)

`sendToSupabase(float avgSoil, float avgLight, float avgScore)` builds
`{"device_id":..., "soil_pct":avgSoil, "ldr_pct":avgLight, "happiness":(int)avgScore}`.
The two networked variants call it with different argument orders. -/

/-- C truncation toward zero of a rational, as performed by `(int)avgScore`. -/
def cTrunc (q : ℚ) : ℤ :=
  if q < 0 then ⌈q⌉ else ⌊q⌋

/-- The three numeric fields of the Supabase JSON body, keyed by the formal
parameters of `sendToSupabase`. -/
structure SupabaseBody where
  soil_pct : ℚ
  ldr_pct : ℚ
  happiness : ℤ
deriving DecidableEq, Repr

/-- Body built inside `sendToSupabase` from its three parameters
(main_2.0 lines 246-250, part_000 lines 310-314). -/
def supabaseBody (avgSoil avgLight avgScore : ℚ) : SupabaseBody :=
  ⟨avgSoil, avgLight, cTrunc avgScore⟩

/-- The call site in main_2.0, line 329: `sendToSupabase(avgSoil, avgLight, avgScore)`. -/
def supabaseCallMain20 (avgSoil avgLight avgScore : ℚ) : SupabaseBody :=
  supabaseBody avgSoil avgLight avgScore

/-- The call site in part_000, line 417: `sendToSupabase(avgSoil, avgScore, avgScore)` —
the window-average light value is never passed. -/
def supabaseCallPart000 (avgSoil avgLight avgScore : ℚ) : SupabaseBody :=
  supabaseBody avgSoil avgScore avgScore

/-! ### Helper lemmas -/

/-- Clamping to `[0,100]` is monotone. -/
theorem clampPct_mono {v w : ℤ} (h : v ≤ w) : clampPct v ≤ clampPct w := by
  unfold clampPct
  split_ifs <;> omega

/-- Truncating division by a positive integer is monotone. -/
theorem tdiv_le_tdiv_of_le {d x y : ℤ} (hd : 0 < d) (h : x ≤ y) :
    Int.tdiv x d ≤ Int.tdiv y d := by
  have etd : ∀ z : ℤ, Int.tdiv z d = -(Int.tdiv (-z) d) := by
    intro z
    rw [← Int.neg_tdiv, neg_neg]
  rcases le_or_lt 0 x with hx | hx
  · rw [Int.tdiv_eq_ediv hx hd.le, Int.tdiv_eq_ediv (le_trans hx h) hd.le]
    exact Int.ediv_le_ediv hd h
  · rcases le_or_lt 0 y with hy | hy
    · have h1 : Int.tdiv x d ≤ 0 := by
        have hnn := Int.tdiv_nonneg (by omega : (0:ℤ) ≤ -x) hd.le
        rw [etd x]
        omega
      have h2 : 0 ≤ Int.tdiv y d := Int.tdiv_nonneg hy hd.le
      omega
    · have key : Int.tdiv (-y) d ≤ Int.tdiv (-x) d := by
        rw [Int.tdiv_eq_ediv (by omega) hd.le, Int.tdiv_eq_ediv (by omega) hd.le]
        exact Int.ediv_le_ediv hd (by omega)
      rw [etd x, etd y]
      omega

/-- The int32 wrap is the identity on values already inside the range. -/
theorem wrap32_id {n : ℤ} (h1 : -2147483648 ≤ n) (h2 : n < 2147483648) :
    wrap32 n = n := by
  unfold wrap32
  omega

/-- Truncating division of an in-range numerator by a positive divisor stays
strictly inside the int32 range. -/
theorem tdiv_range {n d : ℤ} (hd : 0 < d) (h1 : -2147483648 < n)
    (h2 : n < 2147483648) :
    -2147483648 < Int.tdiv n d ∧ Int.tdiv n d < 2147483648 := by
  rcases le_or_lt 0 n with hn | hn
  · have h0 : 0 ≤ Int.tdiv n d := Int.tdiv_nonneg hn hd.le
    have hle : Int.tdiv n d ≤ n := by
      rw [Int.tdiv_eq_ediv hn hd.le]
      exact Int.ediv_le_self d hn
    omega
  · have e : Int.tdiv n d = -(Int.tdiv (-n) d) := by
      rw [← Int.neg_tdiv, neg_neg]
    have h0 : 0 ≤ Int.tdiv (-n) d := Int.tdiv_nonneg (by omega) hd.le
    have hle : Int.tdiv (-n) d ≤ -n := by
      rw [Int.tdiv_eq_ediv (by omega) hd.le]
      exact Int.ediv_le_self d (by omega)
    omega

/-- On raw values whose intermediate products stay inside int32, the soil
map computes the plain truncated linear formula. -/
theorem map_soil_eq {z : ℤ} (h1 : -20000000 ≤ z) (h2 : z ≤ 20000000) :
    map z SOIL_DRY_RAW SOIL_WET_RAW 0 100 =
      Int.tdiv ((z - 2300) * 100) (-1600) := by
  unfold map SOIL_DRY_RAW SOIL_WET_RAW
  rw [show (100 : ℤ) - 0 = 100 by norm_num,
    wrap32_id (n := z - 2300) (by omega) (by omega),
    wrap32_id (n := (100 : ℤ)) (by norm_num) (by norm_num),
    show (700 : ℤ) - 2300 = -1600 by norm_num,
    wrap32_id (n := (-1600 : ℤ)) (by norm_num) (by norm_num),
    wrap32_id (n := (z - 2300) * 100) (by omega) (by omega), add_zero]
  have e : Int.tdiv ((z - 2300) * 100) (-1600) =
      -(Int.tdiv ((z - 2300) * 100) 1600) := by
    rw [show (-1600 : ℤ) = -(1600) by norm_num, Int.tdiv_neg]
  have hb := tdiv_range (n := (z - 2300) * 100) (d := 1600)
    (by norm_num) (by omega) (by omega)
  exact wrap32_id (by omega) (by omega)

/-- On raw values whose intermediate products stay inside int32, the light
map computes the plain truncated linear formula. -/
theorem map_light_eq {z : ℤ} (h1 : -20000000 ≤ z) (h2 : z ≤ 20000000) :
    map z LDR_DARK_RAW LDR_BRIGHT_RAW 0 100 =
      Int.tdiv ((z - 450) * 100) 2550 := by
  unfold map LDR_DARK_RAW LDR_BRIGHT_RAW
  rw [show (100 : ℤ) - 0 = 100 by norm_num,
    wrap32_id (n := z - 450) (by omega) (by omega),
    wrap32_id (n := (100 : ℤ)) (by norm_num) (by norm_num),
    show (3000 : ℤ) - 450 = 2550 by norm_num,
    wrap32_id (n := (2550 : ℤ)) (by norm_num) (by norm_num),
    wrap32_id (n := (z - 450) * 100) (by omega) (by omega), add_zero]
  have hb := tdiv_range (n := (z - 450) * 100) (d := 2550)
    (by norm_num) (by omega) (by omega)
  exact wrap32_id (by omega) (by omega)

/-- Folding `accumulate` over a tick list adds the componentwise totals and
the length, and leaves the timestamp alone. -/
theorem runWindow_eq (ticks : List (ℤ × ℤ × ℤ)) (st : AggState) :
    runWindow st ticks =
      ⟨st.aggSoilSum + soilTotal ticks, st.aggLightSum + lightTotal ticks,
       st.aggScoreSum + scoreTotal ticks, st.aggCount + ticks.length,
       st.lastSendMs⟩ := by
  induction ticks generalizing st with
  | nil => simp [runWindow, soilTotal, lightTotal, scoreTotal]
  | cons t rest ih =>
      have hstep : runWindow st (t :: rest) =
          runWindow (accumulate st t.1 t.2.1 t.2.2) rest := rfl
      rw [hstep, ih]
      simp [accumulate, soilTotal, lightTotal, scoreTotal]
      refine ⟨by ring, by ring, by ring, by ring⟩

/-! ### Claim theorems -/

/-- C1: the alert state machine over the per-tick composite score with the
persistent `alertSent` flag sends a degraded notification and sets the flag
exactly when the score is strictly below the threshold and the flag is
false; sends a recovered notification and clears the flag exactly when the
score is strictly above threshold plus recovery margin and the flag is true;
and on any tick whose score lies in the band
`[threshold, threshold + recoveryMargin]`, or whose state is already the
target state, sends nothing and leaves the flag unchanged. -/
theorem alertStep_hysteresis (alerted : Bool) (s : ℤ) :
    (alertStep alerted s = (true, some Notification.degraded) ↔
      s < HAPPINESS_THRESHOLD ∧ alerted = false) ∧
    (alertStep alerted s = (false, some Notification.recovered) ↔
      HAPPINESS_THRESHOLD + RECOVERY_MARGIN < s ∧ alerted = true) ∧
    ((HAPPINESS_THRESHOLD ≤ s ∧ s ≤ HAPPINESS_THRESHOLD + RECOVERY_MARGIN) ∨
        (s < HAPPINESS_THRESHOLD ∧ alerted = true) ∨
        (HAPPINESS_THRESHOLD + RECOVERY_MARGIN < s ∧ alerted = false) →
      alertStep alerted s = (alerted, none)) := by
  cases alerted <;>
    simp only [alertStep, HAPPINESS_THRESHOLD, RECOVERY_MARGIN] <;>
    split_ifs <;> simp_all <;> omega

/-- Witness for C1: a score of 42 sits in the hysteresis band, so the
Normal-state machine stays put and sends nothing. -/
theorem alertStep_hysteresis_witness : alertStep false 42 = (false, none) :=
  (alertStep_hysteresis false 42).2.2 (Or.inl (by decide))

/-- C2 as stated is false: on the score sequence `[60,35,35,50,42,47]` with
threshold 40 and margin 5 the recovered notification fires at the 50
(because 50 > 45), not at the 47, where nothing fires. -/
theorem alertTrace_sequence_counterexample :
    alertTrace false [60, 35, 35, 50, 42, 47] =
      [none, some Notification.degraded, none, some Notification.recovered,
       none, none] ∧
    alertTrace false [60, 35, 35, 50, 42, 47] ≠
      [none, some Notification.degraded, none, none, none,
       some Notification.recovered] := by
  decide

/-- C2 amended: starting in the Normal state with threshold 40 and margin 5,
the score sequence `[60,35,35,50,42,47]` produces exactly one degraded
notification, at the first 35, and exactly one recovered notification, at
the 50 (since 50 > 45); nothing fires at 60, at the second and third 35, at
the in-band 42, or at the 47. -/
theorem alertTrace_sequence :
    alertTrace false [60, 35, 35, 50, 42, 47] =
      [none, some Notification.degraded, none, some Notification.recovered,
       none, none] := by
  decide

/-- C3 as stated is false: the weights 7.7 and 2.5 sum to 10.2, not 10, so
`score(100,100) = (770 + 250) / 10 = 102`, outside `[0,100]` and not 100. -/
theorem score_counterexample :
    score 100 100 = 102 ∧ ¬ score 100 100 ≤ 100 := by
  decide

/-- C3 amended: for all `soilPct` and `lightPct` in `[0,100]` the composite
score lies in `[0,102]`; in particular `score(100,100) = 102` and
`score(0,0) = 0`. -/
theorem score_range (s l : ℤ) (hs0 : 0 ≤ s) (hs1 : s ≤ 100)
    (hl0 : 0 ≤ l) (hl1 : l ≤ 100) :
    (0 ≤ score s l ∧ score s l ≤ 102) ∧ score 100 100 = 102 ∧
      score 0 0 = 0 := by
  refine ⟨⟨?_, ?_⟩, by decide, by decide⟩
  · exact Int.ediv_nonneg (by nlinarith) (by norm_num)
  · calc (s * 77 + l * 25) / 100 ≤ 10200 / 100 :=
          Int.ediv_le_ediv (by norm_num) (by nlinarith)
    _ = 102 := by decide

/-- Witness for C3 amended, at `soilPct = 50`, `lightPct = 80`. -/
theorem score_range_witness :
    (0 ≤ score 50 80 ∧ score 50 80 ≤ 102) ∧ score 100 100 = 102 ∧
      score 0 0 = 0 :=
  score_range 50 80 (by decide) (by decide) (by decide) (by decide)

/-- C4: for every raw integer input, including values far outside the
two-point calibration bounds in both directions, both `soilToPct` and
`lightToPct` return a value in `[0,100]`; both are total functions, so no
error is signaled for out-of-range raw values. -/
theorem toPercent_bounded (raw : ℤ) :
    (0 ≤ soilToPct raw ∧ soilToPct raw ≤ 100) ∧
    (0 ≤ lightToPct raw ∧ lightToPct raw ≤ 100) := by
  unfold soilToPct lightToPct clampPct
  constructor <;> constructor <;> split_ifs <;> omega

/-- Witness for C4 at a raw value far above both calibration ranges. -/
theorem toPercent_bounded_witness :
    (0 ≤ soilToPct 100000 ∧ soilToPct 100000 ≤ 100) ∧
    (0 ≤ lightToPct 100000 ∧ lightToPct 100000 ≤ 100) :=
  toPercent_bounded 100000

/-- C5: after accumulating exactly the ticks of a window that started at
`t0`, an emission at a time `now` with the window elapsed returns the
arithmetic mean of exactly those samples in each of the three fields,
resets all three sums and the count to zero, records `now` as the new
window start, and any accumulation after the emission proceeds from a
fresh window indistinguishable from one reset at `now` — no sample is
dropped or double-counted across the reset. -/
theorem emit_window_mean (t0 now : ℕ) (ticks : List (ℤ × ℤ × ℤ))
    (hne : ticks ≠ []) (helap : LOG_INTERVAL_MS ≤ elapsedMs now t0) :
    (emit (runWindow (resetAt t0) ticks) now).1 =
      some ((soilTotal ticks : ℚ) / (ticks.length : ℚ),
            (lightTotal ticks : ℚ) / (ticks.length : ℚ),
            (scoreTotal ticks : ℚ) / (ticks.length : ℚ)) ∧
    (emit (runWindow (resetAt t0) ticks) now).2 = resetAt now ∧
    ∀ more : List (ℤ × ℤ × ℤ),
      runWindow (emit (runWindow (resetAt t0) ticks) now).2 more =
        runWindow (resetAt now) more := by
  have hrw : runWindow (resetAt t0) ticks =
      ⟨soilTotal ticks, lightTotal ticks, scoreTotal ticks,
       (ticks.length : ℤ), t0⟩ := by
    rw [runWindow_eq]
    simp [resetAt]
  have hlen : 0 < (ticks.length : ℤ) := by
    exact_mod_cast List.length_pos.mpr hne
  rw [hrw]
  unfold emit
  rw [if_pos ⟨helap, hlen⟩]
  refine ⟨by push_cast; rfl, rfl, fun more => rfl⟩

/-- Witness for C5: two ticks accumulated from a window started at 0,
emitted at the 10-minute mark, average to `(15, 30, 45)`. -/
theorem emit_window_mean_witness :
    (emit (runWindow (resetAt 0) [(10, 20, 30), (20, 40, 60)]) 600000).1 =
      some ((15 : ℚ), (30 : ℚ), (45 : ℚ)) ∧
    (emit (runWindow (resetAt 0) [(10, 20, 30), (20, 40, 60)]) 600000).2 =
      resetAt 600000 := by
  have h := emit_window_mean 0 600000 [(10, 20, 30), (20, 40, 60)]
    (by decide) (by decide)
  refine ⟨?_, h.2.1⟩
  rw [h.1]
  norm_num [soilTotal, lightTotal, scoreTotal]

/-- C6: when the accumulated sample count is zero, the emission step returns
no result and leaves the window state untouched — a no-op, not an error,
and the guard short-circuits before any division happens. -/
theorem emit_zero_count (st : AggState) (now : ℕ) (h : st.aggCount = 0) :
    emit st now = (none, st) := by
  unfold emit
  rw [if_neg]
  omega

/-- Witness for C6: an empty window emits nothing even long after the
interval has elapsed. -/
theorem emit_zero_count_witness :
    emit (resetAt 0) 700000 = (none, resetAt 0) :=
  emit_zero_count (resetAt 0) 700000 rfl

/-- C7: in an emission cycle, Influx (sink A) answering HTTP 500 does not
prevent the Supabase (sink B) attempt — B's outcome is computed from B's
own link and response data, unchanged under any alteration of A's response —
and the window is cleared to the reset state exactly once regardless of
either delivery outcome; the cleared window is never retried. -/
theorem delivery_isolated (st : AggState) (now : ℕ) (env envB : NetEnv)
    (hcond : LOG_INTERVAL_MS ≤ elapsedMs now st.lastSendMs ∧ 0 < st.aggCount)
    (hwifi : env.wifiConnected = true)
    (hbegin : env.influxBeginOk = true)
    (hcode : env.influxCode = 500)
    (hw : envB.wifiConnected = true)
    (hsb : envB.supabaseBeginOk = env.supabaseBeginOk)
    (hsc : envB.supabaseCode = env.supabaseCode) :
    (emitCycle st now env).1 =
      some (Outcome.httpError 500, (sendToSupabase env).2) ∧
    (sendToSupabase env).2 = (sendToSupabase envB).2 ∧
    (emitCycle st now env).2 = resetAt now := by
  unfold emitCycle sendToInflux sendToSupabase
  rw [if_pos hcond]
  simp [hwifi, hbegin, hcode, hw, hsb, hsc]

/-- Witness for C7: a one-sample window at the 10-minute mark, Influx
answering 500, Supabase answering 201: Supabase still succeeds and the
window is cleared. -/
theorem delivery_isolated_witness :
    (emitCycle ⟨10, 20, 30, 1, 0⟩ 600000
        ⟨true, true, true, 500, true, 201, true, 0⟩).1 =
      some (Outcome.httpError 500, Outcome.success) ∧
    (emitCycle ⟨10, 20, 30, 1, 0⟩ 600000
        ⟨true, true, true, 500, true, 201, true, 0⟩).2 = resetAt 600000 := by
  have h := delivery_isolated ⟨10, 20, 30, 1, 0⟩ 600000
    ⟨true, true, true, 500, true, 201, true, 0⟩
    ⟨true, true, true, 500, true, 201, true, 0⟩
    ⟨by decide, by decide⟩ rfl rfl rfl rfl rfl rfl
  refine ⟨?_, h.2.2⟩
  rw [h.1]
  rfl

/-- C8: the claim holds for the main_2.0 call site but the part_000 variant
contradicts it: part_000 line 417 passes `avgScore` as both the `ldr_pct`
and the `happiness` argument, so the posted body reuses the score for two
fields and never carries the window-average light percentage.  Evaluated at
averages `(soil, light, score) = (10, 20, 30)`: part_000 posts
`ldr_pct = 30`, not the light average 20, while main_2.0 posts 20. -/
theorem supabase_field_swap_part000 :
    (supabaseCallPart000 10 20 30).ldr_pct = 30 ∧
    (supabaseCallPart000 10 20 30).ldr_pct ≠ 20 ∧
    (supabaseCallPart000 10 20 30).ldr_pct =
      ((supabaseCallPart000 10 20 30).happiness : ℚ) ∧
    (supabaseCallMain20 10 20 30).ldr_pct = 20 ∧
    (supabaseCallMain20 10 20 30).soil_pct = 10 ∧
    (supabaseCallMain20 10 20 30).happiness = 30 := by
  refine ⟨rfl, by norm_num [supabaseCallPart000, supabaseBody], ?_, rfl, rfl, ?_⟩
  · norm_num [supabaseCallPart000, supabaseBody, cTrunc]
  · norm_num [supabaseCallMain20, supabaseBody, cTrunc]

/-- C9 as stated is false for the telemetry sinks: with connectivity absent
at the start of the call, `sendToInflux` and `sendToSupabase` skip
immediately, invoking the connectivity manager's reconnect operation zero
times, not once. -/
theorem telemetry_no_reconnect_counterexample :
    (sendToInflux ⟨false, false, true, 204, true, 201, true, 1⟩).1 = 0 ∧
    (sendToInflux ⟨false, false, true, 204, true, 201, true, 1⟩).1 ≠ 1 ∧
    (sendToSupabase ⟨false, false, true, 204, true, 201, true, 1⟩).1 = 0 := by
  decide

/-- C9 amended: when connectivity is absent at the start of a delivery call,
the two telemetry sinks invoke reconnect zero times and abandon the call at
once with outcome skipped-no-link, while the alert sink invokes reconnect
exactly once and abandons with skipped-no-link if connectivity is still
absent afterward; no sender enters an inline retry loop. -/
theorem reconnect_policy (env : NetEnv) (h : env.wifiConnected = false) :
    sendToInflux env = (0, Outcome.skippedNoLink) ∧
    sendToSupabase env = (0, Outcome.skippedNoLink) ∧
    (sendPushoverAlert env).1 = 1 ∧
    (env.wifiAfterReconnect = false →
      sendPushoverAlert env = (1, Outcome.skippedNoLink)) := by
  refine ⟨by simp [sendToInflux, h], by simp [sendToSupabase, h], ?_, ?_⟩
  · simp only [sendPushoverAlert, h, Bool.not_false, if_true]
    split_ifs <;> rfl
  · intro h2
    simp [sendPushoverAlert, h, h2]

/-- Witness for C9 amended, with WiFi down and the reconnect also failing. -/
theorem reconnect_policy_witness :
    sendToInflux ⟨false, false, true, 204, true, 201, true, 1⟩ =
      (0, Outcome.skippedNoLink) ∧
    sendToSupabase ⟨false, false, true, 204, true, 201, true, 1⟩ =
      (0, Outcome.skippedNoLink) ∧
    sendPushoverAlert ⟨false, false, true, 204, true, 201, true, 1⟩ =
      (1, Outcome.skippedNoLink) := by
  have h := reconnect_policy ⟨false, false, true, 204, true, 201, true, 1⟩ rfl
  exact ⟨h.1, h.2.1, h.2.2.2 rfl⟩

/-- C10 as stated is false on the code: the 32-bit `long` product
`(raw - in_min) * 100` inside `map` wraps for raw readings around
`2.1 * 10 ^ 7`, which are representable `int` inputs, so neither calibration
profile is monotone over all integer raw inputs — `soilToPct` jumps from 0
to 100 between raw 21477136 and 21477137, and `lightToPct` drops from 100
to 0 between raw 21475286 and 21475287. -/
theorem calibration_wrap_counterexample :
    soilToPct 21477136 = 0 ∧ soilToPct 21477137 = 100 ∧
    ¬ soilToPct 21477137 ≤ soilToPct 21477136 ∧
    lightToPct 21475286 = 100 ∧ lightToPct 21475287 = 0 ∧
    ¬ lightToPct 21475286 ≤ lightToPct 21475287 := by
  decide

/-- C10 amended: on raw readings whose intermediate 32-bit products do not
overflow — here `[-2 * 10 ^ 7, 2 * 10 ^ 7]`, which amply covers the 12-bit
ADC range `[0, 4095]` the sensors can produce — the two calibration
profiles run in opposite numeric directions: `soilToPct` is monotonically
non-increasing while `lightToPct` is monotonically non-decreasing. -/
theorem calibration_opposite_monotone (r r' : ℤ) (hlo : -20000000 ≤ r)
    (hhi : r' ≤ 20000000) (h : r ≤ r') :
    soilToPct r' ≤ soilToPct r ∧ lightToPct r ≤ lightToPct r' := by
  have hlo' : -20000000 ≤ r' := le_trans hlo h
  have hhi' : r ≤ 20000000 := le_trans h hhi
  unfold soilToPct lightToPct
  rw [map_soil_eq hlo' hhi, map_soil_eq hlo hhi',
    map_light_eq hlo' hhi, map_light_eq hlo hhi']
  constructor
  · apply clampPct_mono
    rw [show (-1600 : ℤ) = -(1600) by norm_num, Int.tdiv_neg, Int.tdiv_neg]
    have key := tdiv_le_tdiv_of_le (d := 1600)
      (x := (r - 2300) * 100) (y := (r' - 2300) * 100)
      (by norm_num) (by nlinarith)
    omega
  · apply clampPct_mono
    exact tdiv_le_tdiv_of_le (by norm_num) (by nlinarith)

/-- Witness for C10 amended: between raw readings 1000 and 2000 the soil
profile falls and the light profile rises. -/
theorem calibration_opposite_monotone_witness :
    soilToPct 2000 ≤ soilToPct 1000 ∧ lightToPct 1000 ≤ lightToPct 2000 :=
  calibration_opposite_monotone 1000 2000 (by norm_num) (by norm_num)
    (by norm_num)

end PlantPet
